import Mathlib

/-!
Shallow embedding of the Follow-Me Control Core of the SickDroneProject
repository (`sdronep/app.py`, `sdronep/gimbal_control.py`, `gps_receiver.py`).
Python strings are modelled as lists of character codes, Python floats on the
pure numeric paths as rationals, and the trigonometric angle computations as
real-valued functions.  Stateful routines are modelled as explicit state
transition functions that also report the externally visible commands they
issue.
-/

namespace SDroneP

/-- ASCII decimal digit test for a character code. -/
def isDigit (c : ℕ) : Bool := decide (48 ≤ c ∧ c ≤ 57)

/-- ASCII whitespace test for a character code, matching the characters
stripped by Python numeric conversions. -/
def isWs (c : ℕ) : Bool := decide (c = 32 ∨ c = 9 ∨ c = 10 ∨ c = 13 ∨ c = 11 ∨ c = 12)

/-- Python `str.strip()` on a list of character codes. -/
def trimWs (s : List ℕ) : List ℕ := ((s.dropWhile isWs).reverse.dropWhile isWs).reverse

/-- Numeric value of a list of decimal digit codes, most significant first. -/
def digitsVal (l : List ℕ) : ℕ := l.foldl (fun a c => 10 * a + (c - 48)) 0

/-- Python `str.upper` on one ASCII character code. -/
def pyUpperCode (c : ℕ) : ℕ := if 97 ≤ c ∧ c ≤ 122 then c - 32 else c

/-- Uppercase hexadecimal digit code of a value below 16. -/
def hexCharCode (n : ℕ) : ℕ := if n < 10 then 48 + n else 55 + n

/-- Hexadecimal digit codes, most significant first, with structural fuel;
`fuel ≥ n` makes the first branch unreachable. -/
def hexDigitsAux : ℕ → ℕ → List ℕ
  | 0, n => [hexCharCode (n % 16)]
  | fuel + 1, n =>
    if n < 16 then [hexCharCode n]
    else hexDigitsAux fuel (n / 16) ++ [hexCharCode (n % 16)]

/-- Hexadecimal digit codes of `n`, most significant first. -/
def hexDigits (n : ℕ) : List ℕ := hexDigitsAux n n

/-- Python `f"{n:02X}"`: uppercase hexadecimal, left-padded with `'0'` to at
least two digits. -/
def pyHex02 (n : ℕ) : List ℕ :=
  List.replicate (2 - (hexDigits n).length) 48 ++ hexDigits n

/-- Python `str.split(sep)` on a list of character codes. -/
def pySplit (sep : ℕ) : List ℕ → List (List ℕ)
  | [] => [[]]
  | c :: rest =>
    match pySplit sep rest with
    | [] => [[]]
    | h :: t => if c = sep then [] :: h :: t else (c :: h) :: t

/-- Python `str.startswith` on lists of character codes. -/
def startsWith (s p : List ℕ) : Bool := s.take p.length == p

/-- Checksum validator `validate_nmea_checksum` of `sdronep/app.py` (the copy
in `gps_receiver.py` is identical): reject when no `'*'` (code 42) occurs;
split on `'*'` (more than one `'*'` makes the two-way unpacking raise, which
the handler turns into a rejection); XOR the codes of the content after its
first character; format the result as two uppercase hexadecimal digits and
compare with the uppercased trailing field. -/
def validate_nmea_checksum (sentence : List ℕ) : Bool :=
  if 42 ∈ sentence then
    match pySplit 42 sentence with
    | [content, checksum] =>
      pyHex02 ((content.drop 1).foldl Nat.xor 0) == checksum.map pyUpperCode
    | _ => false
  else false

/-- Python `int(s)` on the decimal forms reachable from NMEA input: optional
surrounding whitespace, an optional sign, then a nonempty digit string. -/
def pyParseInt (s : List ℕ) : Option ℤ :=
  match trimWs s with
  | [] => none
  | c :: rest =>
    if c = 43 then
      if rest ≠ [] ∧ rest.all isDigit then some (digitsVal rest : ℤ) else none
    else if c = 45 then
      if rest ≠ [] ∧ rest.all isDigit then some (-(digitsVal rest : ℤ)) else none
    else if (c :: rest).all isDigit then some (digitsVal (c :: rest) : ℤ)
    else none

/-- Unsigned decimal part of Python `float(s)`: digits with at most one
decimal point and at least one digit overall. -/
def parseUnsignedFloat (t : List ℕ) : Option ℚ :=
  match pySplit 46 t with
  | [ip] => if ip ≠ [] ∧ ip.all isDigit then some (digitsVal ip : ℚ) else none
  | [ip, fp] =>
    if (ip ≠ [] ∨ fp ≠ []) ∧ ip.all isDigit ∧ fp.all isDigit then
      some ((digitsVal ip : ℚ) + (digitsVal fp : ℚ) / 10 ^ fp.length)
    else none
  | _ => none

/-- Python `float(s)` on the plain decimal forms reachable from NMEA input. -/
def pyParseFloat (s : List ℕ) : Option ℚ :=
  match trimWs s with
  | [] => none
  | c :: rest =>
    if c = 43 then parseUnsignedFloat rest
    else if c = 45 then (parseUnsignedFloat rest).map (fun q => -q)
    else parseUnsignedFloat (c :: rest)

/-- Python slice `s[:k]`, including the negative-index convention. -/
def pySliceTo (s : List ℕ) (k : ℤ) : List ℕ :=
  if 0 ≤ k then s.take k.toNat else s.take (s.length - min s.length (-k).toNat)

/-- Python slice `s[k:]`, including the negative-index convention. -/
def pySliceFrom (s : List ℕ) (k : ℤ) : List ℕ :=
  if 0 ≤ k then s.drop k.toNat else s.drop (s.length - min s.length (-k).toNat)

/-- Coordinate decoder `nmea_to_decimal` of `sdronep/app.py` (identical in
`gps_receiver.py`).  The source's latitude and longitude branches compute the
same slices `coord_str[:dot_pos-2]` and `coord_str[dot_pos-2:]`, so the
branch on `dot_pos >= 4` is collapsed here.  A failing numeric conversion is
caught in the source and yields `None`. -/
def nmea_to_decimal (coord_str direction : List ℕ) : Option ℚ :=
  if coord_str = [] ∨ 46 ∉ coord_str then none
  else
    let dot_pos := coord_str.findIdx (fun c => c == 46)
    if coord_str.length < 4 then none
    else
      match pyParseInt (pySliceTo coord_str ((dot_pos : ℤ) - 2)),
            pyParseFloat (pySliceFrom coord_str ((dot_pos : ℤ) - 2)) with
      | some degrees, some minutes =>
        let decimal : ℚ := (degrees : ℚ) + minutes / 60
        if direction = [83] ∨ direction = [87] then some (-decimal) else some decimal
      | _, _ => none

/-- GGA sentence parser `parse_nmea_gga` of `sdronep/app.py`. -/
def parse_nmea_gga (sentence : List ℕ) : Option ℚ × Option ℚ :=
  let parts := pySplit 44 sentence
  if parts.length < 15 then (none, none)
  else
    let lat_raw := parts.getD 2 []
    let lat_dir := parts.getD 3 []
    let lon_raw := parts.getD 4 []
    let lon_dir := parts.getD 5 []
    let q := parts.getD 6 []
    match (if q = [] then some (0 : ℤ) else pyParseInt q) with
    | none => (none, none)
    | some quality =>
      if lat_raw = [] ∨ lon_raw = [] ∨ quality = 0 then (none, none)
      else (nmea_to_decimal lat_raw lat_dir, nmea_to_decimal lon_raw lon_dir)

/-- RMC sentence parser `parse_nmea_rmc` of `sdronep/app.py`. -/
def parse_nmea_rmc (sentence : List ℕ) : Option ℚ × Option ℚ :=
  let parts := pySplit 44 sentence
  if parts.length < 12 then (none, none)
  else
    let status := parts.getD 2 []
    let lat_raw := parts.getD 3 []
    let lat_dir := parts.getD 4 []
    let lon_raw := parts.getD 5 []
    let lon_dir := parts.getD 6 []
    if status ≠ [65] ∨ lat_raw = [] ∨ lon_raw = [] then (none, none)
    else (nmea_to_decimal lat_raw lat_dir, nmea_to_decimal lon_raw lon_dir)

/-- Source tag of the current operator location (`app.config['location_source']`). -/
inductive LocSource
  | phone
  | laptop
  | http
  | nosource
deriving DecidableEq

/-- Location-arbiter slice of the shared Flask state: the current operator
location, its source tag and the timestamp of the last phone GPS update. -/
structure GpsState where
  current_location : ℚ × ℚ
  location_source : LocSource
  last_phone_update : ℚ
deriving DecidableEq

/-- Initial arbiter state created at module load in `sdronep/app.py`. -/
def initGpsState : GpsState :=
  { current_location := (0, 0), location_source := LocSource.nosource, last_phone_update := 0 }

/-- Coordinate pair stored for "no location yet" (`app.config['current_location']`
starts as `(0, 0)` and every has-location test compares against it). -/
def sentinel_location : ℚ × ℚ := (0, 0)

/-- Phone GPS update performed by `gps_udp_receiver` when a sentence decodes
to a valid coordinate pair. -/
def gps_phone_update (now lat lon : ℚ) : GpsState :=
  { current_location := (lat, lon), location_source := LocSource.phone, last_phone_update := now }

/-- One message iteration of `gps_udp_receiver` in `sdronep/app.py`: a
datagram not starting with `'$'` is dropped, a failed checksum makes the loop
`continue`, and a successfully decoded GGA/RMC pair becomes the current
phone-sourced location. -/
def gps_message_step (st : GpsState) (msg : List ℕ) (now : ℚ) : GpsState :=
  match msg with
  | 36 :: _ =>
    if validate_nmea_checksum msg then
      let pair :=
        if startsWith msg [36, 71, 80, 71, 71, 65] ∨ startsWith msg [36, 71, 78, 71, 71, 65] then
          parse_nmea_gga msg
        else if startsWith msg [36, 71, 80, 82, 77, 67] ∨ startsWith msg [36, 71, 78, 82, 77, 67] then
          parse_nmea_rmc msg
        else (none, none)
      match pair with
      | (some lat, some lon) => gps_phone_update now lat lon
      | _ => st
    else st
  | _ => st

/-- Socket-timeout iteration of `gps_udp_receiver`: after 30 seconds without
phone data, a nonzero laptop fix replaces the current location. -/
def gps_udp_timeout_step (st : GpsState) (now : ℚ) (laptop_fix : ℚ × ℚ) : GpsState :=
  if st.location_source = LocSource.phone then
    if now - st.last_phone_update > 30 then
      if laptop_fix.1 ≠ 0 ∨ laptop_fix.2 ≠ 0 then
        { st with current_location := laptop_fix, location_source := LocSource.laptop }
      else st
    else st
  else st

/-- POST branch of the `/location` handler `handle_location` in
`sdronep/app.py`; the boolean reports whether the manual fix was accepted. -/
def handle_location_post (st : GpsState) (now lat lon : ℚ) : GpsState × Bool :=
  if st.location_source = LocSource.phone ∧ now - st.last_phone_update < 30 then
    (st, false)
  else
    ({ st with current_location := (lat, lon), location_source := LocSource.http }, true)

/-- Textual health classification of the current location source. -/
inductive Health
  | live
  | recent
  | stale
  | fallback
  | manual
  | nohealth
deriving DecidableEq

/-- Health classification computed by the GET branch of `handle_location`
(`sdronep/app.py`): phone fixes younger than 10 s are `live`, younger than
60 s `recent`, otherwise `stale`. -/
def location_read_health (src : LocSource) (age : ℚ) : Health :=
  match src with
  | LocSource.phone => if age < 10 then Health.live else if age < 60 then Health.recent else Health.stale
  | LocSource.laptop => Health.fallback
  | LocSource.http => Health.manual
  | LocSource.nosource => Health.nohealth

/-- Health classification computed by `get_status` (`sdronep/app.py`): phone
fixes younger than 10 s are `live`, younger than 30 s `recent`, otherwise
`stale`. -/
def status_read_health (src : LocSource) (age : ℚ) : Health :=
  match src with
  | LocSource.phone => if age < 10 then Health.live else if age < 30 then Health.recent else Health.stale
  | LocSource.laptop => Health.fallback
  | LocSource.http => Health.manual
  | LocSource.nosource => Health.nohealth

/-- Two-argument arctangent with the conventions of `math.atan2`. -/
noncomputable def atan2 (y x : ℝ) : ℝ :=
  if 0 < x then Real.arctan (y / x)
  else if x < 0 then
    if 0 ≤ y then Real.arctan (y / x) + Real.pi else Real.arctan (y / x) - Real.pi
  else
    if 0 < y then Real.pi / 2 else if y < 0 then -(Real.pi / 2) else 0

/-- Python `math.degrees`. -/
noncomputable def math_degrees (x : ℝ) : ℝ := x * (180 / Real.pi)

/-- Python `math.radians`. -/
noncomputable def math_radians (x : ℝ) : ℝ := x * (Real.pi / 180)

/-- Python float modulo `x % y`, used to normalize bearings to `[0, 360)`. -/
noncomputable def pyMod (x y : ℝ) : ℝ := x - y * ⌊x / y⌋

/-- Function `calculate_gimbal_tilt_angle` of `sdronep/app.py`: zero for a
non-positive horizontal distance, otherwise the downward-negative tilt in
degrees clamped to the gimbal limits. -/
noncomputable def calculate_gimbal_tilt_angle (drone_alt user_alt horizontal_distance : ℝ) : ℝ :=
  if horizontal_distance ≤ 0 then 0
  else max (-90) (min 30 (math_degrees (atan2 (-(drone_alt - user_alt)) horizontal_distance)))

/-- Function `get_angle` of `sdronep/gimbal_control.py`: planar distance
between the two positions, then `(180 / 3.14159) * atan2(elevation, distance)`. -/
noncomputable def get_angle (elevation : ℝ) (pos_drone pos_user : ℚ × ℚ) : ℝ :=
  let dx : ℝ := (pos_user.1 : ℝ) - (pos_drone.1 : ℝ)
  let dy : ℝ := (pos_user.2 : ℝ) - (pos_drone.2 : ℝ)
  let x := Real.sqrt (dx ^ 2 + dy ^ 2)
  (180 / 3.14159) * atan2 elevation x

/-- Function `calculate_bearing` of `sdronep/app.py`. -/
noncomputable def calculate_bearing (lat1 lon1 lat2 lon2 : ℝ) : ℝ :=
  let lat1r := math_radians lat1
  let lat2r := math_radians lat2
  let dlon := math_radians (lon2 - lon1)
  let y := Real.sin dlon * Real.cos lat2r
  let x := Real.cos lat1r * Real.sin lat2r - Real.sin lat1r * Real.cos lat2r * Real.cos dlon
  pyMod (math_degrees (atan2 y x) + 360) 360

/-- Function `calculate_distance` of `sdronep/app.py`: haversine distance in
meters, with zero returned whenever either point is the `(0, 0)` sentinel. -/
noncomputable def calculate_distance (lat1 lon1 lat2 lon2 : ℝ) : ℝ :=
  if lat1 = 0 ∧ lon1 = 0 then 0
  else if lat2 = 0 ∧ lon2 = 0 then 0
  else
    let lat1r := math_radians lat1
    let lon1r := math_radians lon1
    let lat2r := math_radians lat2
    let lon2r := math_radians lon2
    let dlat := lat2r - lat1r
    let dlon := lon2r - lon1r
    let a := Real.sin (dlat / 2) ^ 2 + Real.cos lat1r * Real.cos lat2r * Real.sin (dlon / 2) ^ 2
    2 * Real.arcsin (Real.sqrt a) * 6371000

/-- Function `calculate_target_position` of `sdronep/app.py`: stand-off point
south of the operator, longitude held constant. -/
def calculate_target_position (user_lat user_lon _elevation ground_distance : ℚ) : ℚ × ℚ :=
  (user_lat - ground_distance / 111000, user_lon)

/-- Slice of the shared Flask state read by one follow-loop cycle. -/
structure FollowState where
  follow_mode : Bool
  current_location : ℚ × ℚ
  drone_location : ℚ × ℚ
  target_elevation : ℚ
  target_distance : ℚ
  vehicle_connected : Bool
  auto_tracking_enabled : Bool
  drone_altitude_relative : ℚ
  mode : String

/-- Externally visible commands a follow-loop cycle can issue: a goto to the
Vehicle Link or a gimbal angle publication. -/
inductive DroneCmd
  | goto (lat lon alt : ℝ)
  | setGimbal (angle : ℝ)

/-- Function `update_gimbal_for_tracking` of `sdronep/app.py`: publish the
`get_angle` value whenever both locations are away from the sentinel. -/
noncomputable def update_gimbal_for_tracking (st : FollowState) : List DroneCmd :=
  if st.current_location ≠ (0, 0) ∧ st.drone_location ≠ (0, 0) then
    [DroneCmd.setGimbal (get_angle (st.target_elevation : ℝ) st.drone_location st.current_location)]
  else []

/-- Function `orient_drone_towards_user` of `sdronep/app.py`: on the
auto-tracking path, yaw the drone towards the operator (a goto slightly ahead,
only in GUIDED/AUTO/LOITER) and publish the clamped tilt from
`calculate_gimbal_tilt_angle`. -/
noncomputable def orient_drone_towards_user (st : FollowState) : List DroneCmd :=
  if st.current_location = (0, 0) ∨ st.drone_location = (0, 0) ∨
      st.vehicle_connected = false ∨ st.auto_tracking_enabled = false then []
  else
    let user_lat : ℝ := (st.current_location.1 : ℝ)
    let user_lon : ℝ := (st.current_location.2 : ℝ)
    let drone_lat : ℝ := (st.drone_location.1 : ℝ)
    let drone_lon : ℝ := (st.drone_location.2 : ℝ)
    let bearing := calculate_bearing drone_lat drone_lon user_lat user_lon
    let horizontal_distance := calculate_distance drone_lat drone_lon user_lat user_lon
    let drone_alt : ℝ := (st.drone_altitude_relative : ℝ)
    let required_tilt := calculate_gimbal_tilt_angle drone_alt 0 horizontal_distance
    let yaw :=
      if st.mode = "GUIDED" ∨ st.mode = "AUTO" ∨ st.mode = "LOITER" then
        let bearing_rad := math_radians bearing
        let offset_lat := drone_lat + (5 / 111000) * Real.cos bearing_rad
        let offset_lon := drone_lon + (5 / (111000 * Real.cos (math_radians drone_lat))) * Real.sin bearing_rad
        [DroneCmd.goto offset_lat offset_lon drone_alt]
      else []
    yaw ++ [DroneCmd.setGimbal required_tilt]

/-- One iteration of `drone_follow_loop` in `sdronep/app.py`: while
`follow_mode` holds and the operator location is away from the sentinel,
command a goto to the stand-off target, update the gimbal, and on the
auto-tracking path also orient towards the operator. -/
noncomputable def drone_follow_cycle (st : FollowState) : List DroneCmd :=
  if st.follow_mode then
    if st.current_location ≠ (0, 0) then
      let tgt := calculate_target_position st.current_location.1 st.current_location.2
        st.target_elevation st.target_distance
      if st.vehicle_connected then
        [DroneCmd.goto (tgt.1 : ℝ) (tgt.2 : ℝ) (st.target_elevation : ℝ)]
          ++ update_gimbal_for_tracking st
          ++ (if st.auto_tracking_enabled then orient_drone_towards_user st else [])
      else []
    else []
  else []

/-- Oracle model of the Vehicle Link seen by the takeoff code: what the
vehicle reports at each tick of 0.5 seconds. -/
structure VehicleTrace where
  is_armable : ℕ → Bool
  mode_is_guided : ℕ → Bool
  armed : ℕ → Bool
  altitude : ℕ → ℚ

/-- Commands the takeoff code issues to the Vehicle Link. -/
inductive VehCmd
  | setModeGuided
  | armCmd
  | takeoffCmd (alt : ℚ)
deriving DecidableEq

/-- Timeout-guarded polling loop of `simple_takeoff_only` in `sdronep/app.py`:
starting at tick `t` with phase start `t0`, succeed as soon as `cond` holds,
fail once the elapsed ticks exceed `timeout`, and otherwise sleep
`step + 1` ticks.  Returns the success flag and the tick at which the loop
exits. -/
def pollWait (cond : ℕ → Bool) (t0 timeout step : ℕ) (t : ℕ) : Bool × ℕ :=
  if cond t then (true, t)
  else if timeout < t - t0 then (false, t)
  else pollWait cond t0 timeout step (t + step + 1)
termination_by t0 + timeout + 1 - t
decreasing_by omega

/-- Climb-monitoring loop of `simple_takeoff_only`: timeout after 120 ticks
(60 s), abort if the vehicle disarms, succeed at 95 % of the target
altitude. -/
def takeoffMonitor (tr : VehicleTrace) (target : ℚ) (t0 : ℕ) (t : ℕ) : Bool × ℕ :=
  if 120 < t - t0 then (false, t)
  else if tr.armed t = false then (false, t)
  else if target * 0.95 ≤ tr.altitude t then (true, t)
  else takeoffMonitor tr target t0 (t + 1)
termination_by t0 + 121 - t
decreasing_by omega

/-- Function `simple_takeoff_only` of `sdronep/app.py`, over a vehicle trace
with ticks of 0.5 seconds: wait for armable (1 s polls, 30 s timeout), set
GUIDED and wait for it (0.5 s polls, 10 s timeout), sleep 1 s, arm and wait
for it (0.5 s polls, 15 s timeout), command takeoff and monitor the climb
(60 s timeout).  Returns the success flag, the Vehicle Link commands issued,
and the tick at which the attempt ends. -/
def simple_takeoff_only (tr : VehicleTrace) (target : ℚ) (t0 : ℕ) : Bool × List VehCmd × ℕ :=
  let r1 := pollWait tr.is_armable t0 60 1 t0
  if r1.1 = false then (false, [], r1.2)
  else
    let r2 := pollWait tr.mode_is_guided r1.2 20 0 r1.2
    if r2.1 = false then (false, [VehCmd.setModeGuided], r2.2)
    else
      let t3 := r2.2 + 2
      let r3 := pollWait tr.armed t3 30 0 t3
      if r3.1 = false then (false, [VehCmd.setModeGuided, VehCmd.armCmd], r3.2)
      else
        let r4 := takeoffMonitor tr target r3.2 r3.2
        (r4.1, [VehCmd.setModeGuided, VehCmd.armCmd, VehCmd.takeoffCmd target], r4.2)

/-- Armable wait of `arm_and_takeoff` in `sdronep/app.py`
(`while not vehicle.is_armable: time.sleep(1)`): the loop has no timeout, so
it is modelled with explicit fuel; `none` means the loop is still waiting
after `fuel` iterations. -/
def arm_and_takeoff_armable_wait (tr : VehicleTrace) : ℕ → ℕ → Option ℕ
  | t, fuel =>
    if tr.is_armable t then some t
    else
      match fuel with
      | 0 => none
      | fuel + 1 => arm_and_takeoff_armable_wait tr (t + 2) fuel

/-- Vehicle trace that never reports armable. -/
def neverArmableTrace : VehicleTrace :=
  { is_armable := fun _ => false
    mode_is_guided := fun _ => false
    armed := fun _ => false
    altitude := fun _ => 0 }

/-- Slice of the shared Flask state mutated by `start_drone_follow`. -/
structure AppCtl where
  target_elevation : ℚ
  target_distance : ℚ
  tracking_active : Bool
  follow_mode : Bool
deriving DecidableEq

/-- HTTP outcome of the `/drone/follow/start` handler. -/
inductive FollowResp
  | ok
  | badRequest
  | serverError
deriving DecidableEq

/-- Vehicle Link interactions of `start_drone_follow`. -/
inductive VehicleCall
  | connect
  | armTakeoff (alt : ℚ)
deriving DecidableEq

/-- Handler `start_drone_follow` of `sdronep/app.py`: validate elevation and
distance first, then store the parameters, connect to the vehicle, activate
tracking, arm and take off, and finally enable follow mode.  The result is
the HTTP outcome, the new state, and the Vehicle Link calls made. -/
def start_drone_follow (st : AppCtl) (elevation distance : ℚ) (vehicle_available : Bool) :
    FollowResp × AppCtl × List VehicleCall :=
  if elevation < 5 ∨ elevation > 100 then (FollowResp.badRequest, st, [])
  else if distance < 5 ∨ distance > 50 then (FollowResp.badRequest, st, [])
  else
    let st1 := { st with target_elevation := elevation, target_distance := distance }
    if vehicle_available = false then (FollowResp.serverError, st1, [VehicleCall.connect])
    else
      let st2 := { st1 with tracking_active := true }
      (FollowResp.ok, { st2 with follow_mode := true },
        [VehicleCall.connect, VehicleCall.armTakeoff elevation])

/-- Gimbal tilt formula as the specification words it: `atan2(-(drone_alt -
operator_alt), horizontal_distance)` in degrees, clamped to `[-90, +30]`,
with no special case for a non-positive distance.  Kept separate from
`calculate_gimbal_tilt_angle` so the two can be compared. -/
noncomputable def spec_gimbal_tilt (drone_alt operator_alt horizontal_distance : ℝ) : ℝ :=
  max (-90) (min 30 (math_degrees (atan2 (-(drone_alt - operator_alt)) horizontal_distance)))

/-- Follow-loop state used to exercise the gimbal publication path: follow
mode on, operator at `(3, 4)`, drone at `(3, 0)`, auto-tracking off. -/
def followStateA : FollowState :=
  { follow_mode := true
    current_location := (3, 4)
    drone_location := (3, 0)
    target_elevation := 20
    target_distance := 10
    vehicle_connected := true
    auto_tracking_enabled := false
    drone_altitude_relative := 20
    mode := "GUIDED" }

/-- Follow-loop state whose operator location is the `(0, 0)` sentinel. -/
def followStateB : FollowState :=
  { follow_mode := true
    current_location := (0, 0)
    drone_location := (1, 1)
    target_elevation := 20
    target_distance := 10
    vehicle_connected := true
    auto_tracking_enabled := false
    drone_altitude_relative := 20
    mode := "GUIDED" }

/-- Follow-loop state holding a genuine phone fix at exactly `(0, 0)`. -/
def followStateC : FollowState :=
  { follow_mode := true
    current_location := (0, 0)
    drone_location := (2, 2)
    target_elevation := 15
    target_distance := 10
    vehicle_connected := true
    auto_tracking_enabled := false
    drone_altitude_relative := 15
    mode := "GUIDED" }

/-- Follow-loop state used by witnesses, away from every sentinel. -/
def followStateD : FollowState :=
  { follow_mode := true
    current_location := (1, 2)
    drone_location := (3, 4)
    target_elevation := 7
    target_distance := 5
    vehicle_connected := true
    auto_tracking_enabled := false
    drone_altitude_relative := 7
    mode := "GUIDED" }

/-- C8: a start_follow request whose elevation lies outside [5,100] meters or
whose distance lies outside [5,50] meters is rejected with an error before
any Vehicle Link call and before any state mutation: the stored target
elevation, target distance, tracking_active and follow_mode flags are
unchanged by the rejected request. -/
theorem start_follow_rejects_before_state_and_vehicle (st : AppCtl) (e d : ℚ) (va : Bool)
    (h : e < 5 ∨ e > 100 ∨ d < 5 ∨ d > 50) :
    start_drone_follow st e d va = (FollowResp.badRequest, st, []) := by
  by_cases he : e < 5 ∨ e > 100
  · simp [start_drone_follow, he]
  · have hd : d < 5 ∨ d > 50 := by tauto
    simp [start_drone_follow, he, hd]

/-- Witness for C8: the spec scenario, elevation 150 with distance 10, is
rejected with the state untouched and no vehicle call. -/
theorem start_follow_rejects_before_state_and_vehicle_witness :
    start_drone_follow ⟨20, 10, false, false⟩ 150 10 true =
      (FollowResp.badRequest, ⟨20, 10, false, false⟩, []) :=
  start_follow_rejects_before_state_and_vehicle ⟨20, 10, false, false⟩ 150 10 true
    (by norm_num)

/-- C7: while follow_mode is true, a follow-loop cycle whose operator
location equals the sentinel is skipped entirely: no command, in particular
no goto, is issued to the Vehicle Link. -/
theorem follow_cycle_skips_sentinel (st : FollowState)
    (hf : st.follow_mode = true) (hloc : st.current_location = (0, 0)) :
    drone_follow_cycle st = [] ∧ ∀ la lo al, DroneCmd.goto la lo al ∉ drone_follow_cycle st := by
  have h : drone_follow_cycle st = [] := by
    simp [drone_follow_cycle, hf, hloc]
  exact ⟨h, by simp [h]⟩

/-- Witness for C7: the concrete sentinel-location cycle issues nothing. -/
theorem follow_cycle_skips_sentinel_witness :
    drone_follow_cycle followStateB = [] :=
  (follow_cycle_skips_sentinel followStateB rfl rfl).1

/-- C3: a manual HTTP fix is accepted exactly when the current source is not
phone or the phone fix is at least 30 s old; the laptop fallback changes the
state only when the current source is phone and the fix is over 30 s old;
hence a phone fix younger than 30 s is never overwritten by either
lower-priority source. -/
theorem location_arbiter_priority :
    (∀ (st : GpsState) (now lat lon : ℚ),
        (handle_location_post st now lat lon).2 = true ↔
          (st.location_source ≠ LocSource.phone ∨ 30 ≤ now - st.last_phone_update))
    ∧ (∀ (st : GpsState) (now : ℚ) (fix : ℚ × ℚ),
        gps_udp_timeout_step st now fix ≠ st →
          st.location_source = LocSource.phone ∧ 30 < now - st.last_phone_update)
    ∧ (∀ (st : GpsState) (now lat lon : ℚ) (fix : ℚ × ℚ),
        st.location_source = LocSource.phone → now - st.last_phone_update < 30 →
          (handle_location_post st now lat lon).1 = st ∧ gps_udp_timeout_step st now fix = st) := by
  refine ⟨?_, ?_, ?_⟩
  · intro st now lat lon
    unfold handle_location_post
    split_ifs with h
    · simp only [Bool.false_eq_true, false_iff]
      push_neg
      exact h
    · simp only [true_iff]
      rw [not_and_or] at h
      rcases h with h | h
      · exact Or.inl h
      · exact Or.inr (le_of_not_lt h)
  · intro st now fix hne
    unfold gps_udp_timeout_step at hne
    split_ifs at hne with h1 h2 h3
    · exact ⟨h1, h2⟩
    · exact absurd rfl hne
    · exact absurd rfl hne
    · exact absurd rfl hne
  · intro st now lat lon fix hsrc hage
    constructor
    · unfold handle_location_post
      rw [if_pos ⟨hsrc, hage⟩]
    · unfold gps_udp_timeout_step
      rw [if_pos hsrc, if_neg (by linarith)]

/-- Witness for C3: a phone fix 10 s old is preserved against both a manual
HTTP fix and the laptop fallback. -/
theorem location_arbiter_priority_witness :
    (handle_location_post ⟨(1, 2), LocSource.phone, 100⟩ 110 5 6).1 =
        (⟨(1, 2), LocSource.phone, 100⟩ : GpsState)
    ∧ gps_udp_timeout_step ⟨(1, 2), LocSource.phone, 100⟩ 110 (7, 8) =
        (⟨(1, 2), LocSource.phone, 100⟩ : GpsState) :=
  location_arbiter_priority.2.2 ⟨(1, 2), LocSource.phone, 100⟩ 110 5 6 (7, 8) rfl (by norm_num)

/-- C9 fails as stated: the GET branch of the location read classifies a
phone fix aged 45 s as recent, where the claim requires stale (its recent
window extends to 60 s, not 30 s). -/
theorem location_read_health_45s_recent :
    location_read_health LocSource.phone 45 = Health.recent ∧ Health.recent ≠ Health.stale := by
  constructor
  · show (if (45 : ℚ) < 10 then Health.live else if (45 : ℚ) < 60 then Health.recent
      else Health.stale) = Health.recent
    norm_num
  · decide

/-- C9 amended: get_status classifies a phone fix live under 10 s, recent
under 30 s and stale from 30 s; the /location GET read instead uses live
under 10 s, recent under 60 s and stale from 60 s; non-GPS sources map to
manual/fallback/none classifications. -/
theorem health_classification :
    (∀ age : ℚ,
        (status_read_health LocSource.phone age = Health.live ↔ age < 10)
        ∧ (status_read_health LocSource.phone age = Health.recent ↔ 10 ≤ age ∧ age < 30)
        ∧ (status_read_health LocSource.phone age = Health.stale ↔ 30 ≤ age))
    ∧ (∀ age : ℚ,
        (location_read_health LocSource.phone age = Health.live ↔ age < 10)
        ∧ (location_read_health LocSource.phone age = Health.recent ↔ 10 ≤ age ∧ age < 60)
        ∧ (location_read_health LocSource.phone age = Health.stale ↔ 60 ≤ age))
    ∧ (∀ age : ℚ,
        status_read_health LocSource.http age = Health.manual
        ∧ status_read_health LocSource.laptop age = Health.fallback
        ∧ status_read_health LocSource.nosource age = Health.nohealth
        ∧ location_read_health LocSource.http age = Health.manual
        ∧ location_read_health LocSource.nosource age = Health.nohealth) := by
  refine ⟨?_, ?_, fun age => ⟨rfl, rfl, rfl, rfl, rfl⟩⟩
  · intro age
    have e : status_read_health LocSource.phone age =
        (if age < 10 then Health.live else if age < 30 then Health.recent
          else Health.stale) := rfl
    simp only [e]
    split_ifs with h1 h2
    · exact ⟨iff_of_true rfl h1,
        iff_of_false (by decide) (fun hc => absurd h1 (by linarith [hc.1])),
        iff_of_false (by decide) (fun hc => absurd h1 (by linarith))⟩
    · exact ⟨iff_of_false (by decide) h1,
        iff_of_true rfl ⟨le_of_not_lt h1, h2⟩,
        iff_of_false (by decide) (not_le.mpr h2)⟩
    · exact ⟨iff_of_false (by decide) h1,
        iff_of_false (by decide) (fun hc => h2 hc.2),
        iff_of_true rfl (le_of_not_lt h2)⟩
  · intro age
    have e : location_read_health LocSource.phone age =
        (if age < 10 then Health.live else if age < 60 then Health.recent
          else Health.stale) := rfl
    simp only [e]
    split_ifs with h1 h2
    · exact ⟨iff_of_true rfl h1,
        iff_of_false (by decide) (fun hc => absurd h1 (by linarith [hc.1])),
        iff_of_false (by decide) (fun hc => absurd h1 (by linarith))⟩
    · exact ⟨iff_of_false (by decide) h1,
        iff_of_true rfl ⟨le_of_not_lt h1, h2⟩,
        iff_of_false (by decide) (not_le.mpr h2)⟩
    · exact ⟨iff_of_false (by decide) h1,
        iff_of_false (by decide) (fun hc => h2 hc.2),
        iff_of_true rfl (le_of_not_lt h2)⟩

/-- Witness for C9 amended: at age 45 s the status read says stale while the
location GET read says recent. -/
theorem health_classification_witness :
    status_read_health LocSource.phone 45 = Health.stale
    ∧ location_read_health LocSource.phone 45 = Health.recent :=
  ⟨((health_classification.1 45).2.2).mpr (by norm_num),
   ((health_classification.2.1 45).2.1).mpr (by norm_num)⟩

/-- C6 fails as stated: the stored sentinel is the plain pair (0, 0), so a
genuine phone fix at exactly latitude 0, longitude 0 compares equal to it
and the follow loop treats the system as having no location (the cycle is
skipped). -/
theorem sentinel_conflates_origin_fix :
    (gps_phone_update 100 0 0).current_location = sentinel_location
    ∧ drone_follow_cycle followStateC = [] := by
  refine ⟨rfl, ?_⟩
  simp [drone_follow_cycle, followStateC]

/-- C6 amended: the no-location sentinel is the coordinate pair (0, 0); a
real fix with coordinates different from (0, 0) compares unequal to it, but
a genuine fix at exactly (0, 0) compares equal and the follow loop skips as
if no location existed. -/
theorem sentinel_comparison :
    (∀ now lat lon : ℚ, (lat, lon) ≠ ((0 : ℚ), (0 : ℚ)) →
        (gps_phone_update now lat lon).current_location ≠ sentinel_location)
    ∧ (∀ st : FollowState, st.current_location = (0, 0) → drone_follow_cycle st = [])
    ∧ (gps_phone_update 50 0 0).current_location = sentinel_location := by
  refine ⟨fun now lat lon h => h, ?_, rfl⟩
  intro st h
  simp [drone_follow_cycle, h]

/-- Witness for C6 amended: a fix at (1, 2) differs from the sentinel, and a
cycle at the sentinel issues nothing. -/
theorem sentinel_comparison_witness :
    (gps_phone_update 5 1 2).current_location ≠ sentinel_location
    ∧ drone_follow_cycle followStateB = [] :=
  ⟨sentinel_comparison.1 5 1 2 (by norm_num), sentinel_comparison.2.1 followStateB rfl⟩

lemma not_ws_of_digit {c : ℕ} (h : isDigit c = true) : isWs c = false := by
  simp only [isDigit, decide_eq_true_eq] at h
  simp only [isWs, decide_eq_false_iff_not]
  omega

lemma digit_ne_dot {c : ℕ} (h : isDigit c = true) : (c == 46) = false := by
  simp only [isDigit, decide_eq_true_eq] at h
  simp only [beq_eq_false_iff_ne, ne_eq]
  omega

lemma digit_bounds {c : ℕ} (h : isDigit c = true) : 48 ≤ c ∧ c ≤ 57 := by
  simpa [isDigit] using h

lemma all_digits_mem {l : List ℕ} (h : l.all isDigit = true) {c : ℕ} (hc : c ∈ l) :
    isDigit c = true := by
  rw [List.all_eq_true] at h
  exact h c hc

lemma dropWhile_eq_self_of {p : ℕ → Bool} {l : List ℕ} (h : ∀ c ∈ l, p c = false) :
    l.dropWhile p = l := by
  cases l with
  | nil => rfl
  | cons a t => simp [List.dropWhile_cons, h a (List.mem_cons_self a t)]

lemma trimWs_eq_self {l : List ℕ} (h : ∀ c ∈ l, isWs c = false) : trimWs l = l := by
  unfold trimWs
  rw [dropWhile_eq_self_of h, dropWhile_eq_self_of (by intro c hc; exact h c (List.mem_reverse.mp hc)),
    List.reverse_reverse]

lemma pyParseInt_digits {l : List ℕ} (hne : l ≠ []) (hall : l.all isDigit = true) :
    pyParseInt l = some (digitsVal l : ℤ) := by
  have htrim : trimWs l = l :=
    trimWs_eq_self (fun c hc => not_ws_of_digit (all_digits_mem hall hc))
  cases l with
  | nil => exact absurd rfl hne
  | cons c rest =>
    have hc : isDigit c = true := all_digits_mem hall (List.mem_cons_self c rest)
    have hb := digit_bounds hc
    have h43 : ¬ c = 43 := by omega
    have h45 : ¬ c = 45 := by omega
    simp only [pyParseInt, htrim, if_neg h43, if_neg h45, hall, if_true]

lemma pySplit_ne_nil (sep : ℕ) (l : List ℕ) : pySplit sep l ≠ [] := by
  cases l with
  | nil => simp [pySplit]
  | cons a t =>
    simp only [pySplit]
    rcases pySplit sep t with _ | ⟨h, t2⟩
    · simp
    · split_ifs <;> simp

lemma pySplit_not_mem {sep : ℕ} {l : List ℕ} (h : sep ∉ l) : pySplit sep l = [l] := by
  induction l with
  | nil => rfl
  | cons a t ih =>
    have ha : ¬ a = sep := fun he => h (he ▸ List.mem_cons_self a t)
    have ht : sep ∉ t := fun hm => h (List.mem_cons_of_mem a hm)
    simp only [pySplit, ih ht, if_neg ha]

lemma pySplit_sep_append {sep : ℕ} {a b : List ℕ} (h : sep ∉ a) :
    pySplit sep (a ++ sep :: b) = a :: pySplit sep b := by
  induction a with
  | nil =>
    simp only [List.nil_append, pySplit]
    rcases he : pySplit sep b with _ | ⟨h2, t2⟩
    · exact absurd he (pySplit_ne_nil sep b)
    · simp
  | cons x xs ih =>
    have hx : ¬ x = sep := fun he => h (he ▸ List.mem_cons_self x xs)
    have hxs : sep ∉ xs := fun hm => h (List.mem_cons_of_mem x hm)
    have hih := ih hxs
    simp only [List.cons_append, pySplit]
    simp only [List.append_eq] at hih ⊢
    rw [hih]
    simp [if_neg hx]

lemma pyParseFloat_fixed {m f : List ℕ} (hm : m ≠ []) (hmall : m.all isDigit = true)
    (hfall : f.all isDigit = true) :
    pyParseFloat (m ++ 46 :: f) = some ((digitsVal m : ℚ) + (digitsVal f : ℚ) / 10 ^ f.length) := by
  have hws : ∀ c ∈ m ++ 46 :: f, isWs c = false := by
    intro c hc
    rcases List.mem_append.mp hc with hc | hc
    · exact not_ws_of_digit (all_digits_mem hmall hc)
    · rcases List.mem_cons.mp hc with rfl | hc
      · rfl
      · exact not_ws_of_digit (all_digits_mem hfall hc)
  have htrim : trimWs (m ++ 46 :: f) = m ++ 46 :: f := trimWs_eq_self hws
  have hsplit : pySplit 46 (m ++ 46 :: f) = [m, f] := by
    rw [pySplit_sep_append (fun hc => by
      have := digit_bounds (all_digits_mem hmall hc); omega)]
    rw [pySplit_not_mem (fun hc => by
      have := digit_bounds (all_digits_mem hfall hc); omega)]
  cases m with
  | nil => exact absurd rfl hm
  | cons c rest =>
    have hc : isDigit c = true := all_digits_mem hmall (List.mem_cons_self c rest)
    have hb := digit_bounds hc
    have h43 : ¬ c = 43 := by omega
    have h45 : ¬ c = 45 := by omega
    rw [List.cons_append] at htrim hsplit
    simp only [pyParseFloat, List.cons_append, htrim, if_neg h43, if_neg h45]
    simp only [parseUnsignedFloat, hsplit]
    rw [if_pos ⟨Or.inl hm, hmall, hfall⟩]

lemma findIdx_append_not {p : ℕ → Bool} {a b : List ℕ} (h : ∀ x ∈ a, p x = false) :
    List.findIdx p (a ++ b) = a.length + List.findIdx p b := by
  induction a with
  | nil => simp
  | cons x xs ih =>
    have hx : p x = false := h x (List.mem_cons_self x xs)
    have hxs : ∀ x ∈ xs, p x = false := fun y hy => h y (List.mem_cons_of_mem x hy)
    simp only [List.cons_append, List.findIdx_cons, hx, cond_false, ih hxs, List.length_cons]
    omega

lemma nmea_wf (d m f dir : List ℕ) (hd : d ≠ []) (hdall : d.all isDigit = true)
    (hm2 : m.length = 2) (hmall : m.all isDigit = true) (hfall : f.all isDigit = true) :
    nmea_to_decimal (d ++ m ++ 46 :: f) dir =
      some (if dir = [83] ∨ dir = [87]
            then -((digitsVal d : ℚ) + ((digitsVal m : ℚ) + (digitsVal f : ℚ) / 10 ^ f.length) / 60)
            else (digitsVal d : ℚ) + ((digitsVal m : ℚ) + (digitsVal f : ℚ) / 10 ^ f.length) / 60) := by
  have hm : m ≠ [] := by intro he; rw [he] at hm2; simp at hm2
  have hdpos : 1 ≤ d.length := List.length_pos.mpr hd
  have hne : d ++ m ++ 46 :: f ≠ [] := by simp
  have hmem : 46 ∈ d ++ m ++ 46 :: f := by simp
  have hfind : (d ++ m ++ 46 :: f).findIdx (fun c => c == 46) = d.length + 2 := by
    have hdm : ∀ x ∈ d ++ m, (x == 46) = false := by
      intro x hx
      rcases List.mem_append.mp hx with hx | hx
      · exact digit_ne_dot (all_digits_mem hdall hx)
      · exact digit_ne_dot (all_digits_mem hmall hx)
    rw [findIdx_append_not hdm]
    simp [List.findIdx_cons, hm2]
  have hlen : ¬ (d ++ m ++ 46 :: f).length < 4 := by
    simp only [List.length_append, List.length_cons, hm2]
    omega
  simp only [nmea_to_decimal, if_neg (not_or.mpr ⟨hne, not_not_intro hmem⟩), hfind, if_neg hlen]
  have hcast : ((d.length + 2 : ℕ) : ℤ) - 2 = (d.length : ℤ) := by push_cast; ring
  rw [hcast]
  have hto : pySliceTo (d ++ m ++ 46 :: f) (d.length : ℤ) = d := by
    simp only [pySliceTo, if_pos (Int.natCast_nonneg d.length), Int.toNat_natCast,
      List.append_assoc]
    exact List.take_left d (m ++ 46 :: f)
  have hfrom : pySliceFrom (d ++ m ++ 46 :: f) (d.length : ℤ) = m ++ 46 :: f := by
    simp only [pySliceFrom, if_pos (Int.natCast_nonneg d.length), Int.toNat_natCast,
      List.append_assoc]
    exact List.drop_left d (m ++ 46 :: f)
  rw [hto, hfrom, pyParseInt_digits hd hdall, pyParseFloat_fixed hm hmall hfall]
  split_ifs with hdir <;> · push_cast; ring_nf

/-- C5: on well-formed ddmm.mmmm or dddmm.mmmm content (here: a nonempty
digit string of degrees followed by exactly two minute digits, the decimal
point, and a digit fraction) the decoder returns degrees plus minutes over
sixty, where the degrees part is everything up to two characters before the
decimal point and the minutes part is the remainder, negated for direction
'S' or 'W'; the enumerated malformed shapes (empty, no decimal point, fewer
than four characters, or parts failing numeric conversion) yield None
instead of an error. -/
theorem nmea_to_decimal_correct :
    (∀ d m f dir : List ℕ, d ≠ [] → d.all isDigit = true → m.length = 2 →
        m.all isDigit = true → f.all isDigit = true →
        nmea_to_decimal (d ++ m ++ 46 :: f) dir =
          some (if dir = [83] ∨ dir = [87]
                then -((digitsVal d : ℚ) + ((digitsVal m : ℚ) + (digitsVal f : ℚ) / 10 ^ f.length) / 60)
                else (digitsVal d : ℚ) + ((digitsVal m : ℚ) + (digitsVal f : ℚ) / 10 ^ f.length) / 60))
    ∧ (∀ dir, nmea_to_decimal [] dir = none)
    ∧ (∀ s dir, 46 ∉ s → nmea_to_decimal s dir = none)
    ∧ (∀ s dir, s.length < 4 → nmea_to_decimal s dir = none)
    ∧ (∀ s dir, pyParseInt (pySliceTo s ((s.findIdx (fun c => c == 46) : ℤ) - 2)) = none →
        nmea_to_decimal s dir = none)
    ∧ (∀ s dir, pyParseFloat (pySliceFrom s ((s.findIdx (fun c => c == 46) : ℤ) - 2)) = none →
        nmea_to_decimal s dir = none) := by
  refine ⟨nmea_wf, fun dir => rfl, ?_, ?_, ?_, ?_⟩
  · intro s dir h
    simp [nmea_to_decimal, h]
  · intro s dir h
    by_cases h0 : s = [] ∨ 46 ∉ s
    · simp [nmea_to_decimal, h0]
    · simp [nmea_to_decimal, h0, h]
  · intro s dir h
    by_cases h0 : s = [] ∨ 46 ∉ s
    · simp [nmea_to_decimal, h0]
    · by_cases h4 : s.length < 4
      · simp [nmea_to_decimal, h0, h4]
      · simp [nmea_to_decimal, h0, h4, h]
  · intro s dir h
    by_cases h0 : s = [] ∨ 46 ∉ s
    · simp [nmea_to_decimal, h0]
    · by_cases h4 : s.length < 4
      · simp [nmea_to_decimal, h0, h4]
      · rcases hi : pyParseInt (pySliceTo s ((s.findIdx (fun c => c == 46) : ℤ) - 2)) with _ | z
        · simp [nmea_to_decimal, h0, h4, hi]
        · simp [nmea_to_decimal, h0, h4, hi, h]

/-- Witness for C5: `4916.45` with `N` decodes to `49 + 16.45/60` and with
`S` to its negation. -/
theorem nmea_to_decimal_correct_witness :
    nmea_to_decimal ([52, 57] ++ [49, 54] ++ 46 :: [52, 53]) [78] = some (49 + (16 + 45 / 100) / 60)
    ∧ nmea_to_decimal ([52, 57] ++ [49, 54] ++ 46 :: [52, 53]) [83] =
        some (-(49 + (16 + 45 / 100) / 60)) := by
  have h1 := nmea_to_decimal_correct.1 [52, 57] [49, 54] [52, 53] [78]
    (by decide) (by decide) (by decide) (by decide) (by decide)
  have h2 := nmea_to_decimal_correct.1 [52, 57] [49, 54] [52, 53] [83]
    (by decide) (by decide) (by decide) (by decide) (by decide)
  refine ⟨?_, ?_⟩
  · rw [h1]; norm_num [digitsVal]
  · rw [h2]; norm_num [digitsVal]

/-- C10: the decoder negates only for the exact uppercase direction strings
"S" and "W"; every other direction value, lowercase included, yields the
same value as "N", which on well-formed content is the nonnegative
north/east decode rather than an error. -/
theorem nmea_direction_exact_match :
    (∀ coord dir : List ℕ, dir ≠ [83] → dir ≠ [87] →
        nmea_to_decimal coord dir = nmea_to_decimal coord [78])
    ∧ (∀ d m f dir : List ℕ, d ≠ [] → d.all isDigit = true → m.length = 2 →
        m.all isDigit = true → f.all isDigit = true → dir ≠ [83] → dir ≠ [87] →
        nmea_to_decimal (d ++ m ++ 46 :: f) dir =
          some ((digitsVal d : ℚ) + ((digitsVal m : ℚ) + (digitsVal f : ℚ) / 10 ^ f.length) / 60)
        ∧ (0 : ℚ) ≤ (digitsVal d : ℚ) + ((digitsVal m : ℚ) + (digitsVal f : ℚ) / 10 ^ f.length) / 60) := by
  constructor
  · intro coord dir h83 h87
    by_cases h0 : coord = [] ∨ 46 ∉ coord
    · simp [nmea_to_decimal, h0]
    · by_cases h4 : coord.length < 4
      · simp [nmea_to_decimal, h0, h4]
      · rcases hi : pyParseInt (pySliceTo coord ((coord.findIdx (fun c => c == 46) : ℤ) - 2)) with _ | z
        · simp [nmea_to_decimal, h0, h4, hi]
        · rcases hf : pyParseFloat (pySliceFrom coord ((coord.findIdx (fun c => c == 46) : ℤ) - 2)) with _ | q
          · simp [nmea_to_decimal, h0, h4, hi, hf]
          · simp [nmea_to_decimal, h0, h4, hi, hf, h83, h87]
  · intro d m f dir hd hdall hm2 hmall hfall h83 h87
    have h := nmea_wf d m f dir hd hdall hm2 hmall hfall
    rw [if_neg (by rintro (h | h) <;> [exact h83 h; exact h87 h])] at h
    exact ⟨h, by positivity⟩

/-- Witness for C10: lowercase "s" leaves `4916.45` positive, identical to
the "N" decode. -/
theorem nmea_direction_exact_match_witness :
    nmea_to_decimal [52, 57, 49, 54, 46, 52, 53] [115] =
      nmea_to_decimal [52, 57, 49, 54, 46, 52, 53] [78] :=
  nmea_direction_exact_match.1 [52, 57, 49, 54, 46, 52, 53] [115] (by decide) (by decide)

lemma xor_left_comm (a b c : ℕ) : a ^^^ (b ^^^ c) = b ^^^ (a ^^^ c) := by
  rw [← Nat.xor_assoc, Nat.xor_comm a b, Nat.xor_assoc]

lemma foldl_xor_eq (l : List ℕ) : ∀ a : ℕ, l.foldl Nat.xor a = a ^^^ l.foldl Nat.xor 0 := by
  induction l with
  | nil => intro a; simp
  | cons x t ih =>
    intro a
    simp only [List.foldl_cons]
    rw [ih (Nat.xor a x), ih (Nat.xor 0 x)]
    show a ^^^ x ^^^ _ = a ^^^ ((0 ^^^ x) ^^^ _)
    simp [Nat.xor_assoc, Nat.xor_comm, xor_left_comm]

lemma xorBytes_append (u v : List ℕ) :
    (u ++ v).foldl Nat.xor 0 = (u.foldl Nat.xor 0) ^^^ (v.foldl Nat.xor 0) := by
  rw [List.foldl_append, foldl_xor_eq v, Nat.xor_comm]

lemma xorBytes_cons (c : ℕ) (l : List ℕ) :
    (c :: l).foldl Nat.xor 0 = c ^^^ l.foldl Nat.xor 0 := by
  simp only [List.foldl_cons]
  rw [foldl_xor_eq l]
  show (0 ^^^ c) ^^^ _ = _
  rw [Nat.zero_xor]

lemma xorBytes_flip (u v : List ℕ) (c k2 : ℕ) :
    (u ++ (c ^^^ k2) :: v).foldl Nat.xor 0 = ((u ++ c :: v).foldl Nat.xor 0) ^^^ k2 := by
  rw [xorBytes_append, xorBytes_append, xorBytes_cons, xorBytes_cons]
  simp [Nat.xor_assoc, Nat.xor_comm, xor_left_comm]

lemma xorBytes_lt (l : List ℕ) (h : ∀ x ∈ l, x < 256) : l.foldl Nat.xor 0 < 256 := by
  induction l with
  | nil => norm_num
  | cons x t ih =>
    rw [xorBytes_cons]
    have h1 : x < 2 ^ 8 := by have := h x (List.mem_cons_self x t); norm_num at *; omega
    have h2 : t.foldl Nat.xor 0 < 2 ^ 8 := by
      have := ih (fun y hy => h y (List.mem_cons_of_mem x hy))
      norm_num at *; omega
    have := Nat.xor_lt_two_pow h1 h2
    norm_num at this; omega

lemma hexCharCode_inj {a b : ℕ} (ha : a < 16) (hb : b < 16)
    (h : hexCharCode a = hexCharCode b) : a = b := by
  unfold hexCharCode at h
  split_ifs at h <;> omega

lemma hexDigits_byte {n : ℕ} (h : n < 256) :
    hexDigits n =
      if n < 16 then [hexCharCode n] else [hexCharCode (n / 16), hexCharCode (n % 16)] := by
  unfold hexDigits
  cases n with
  | zero => norm_num [hexDigitsAux]
  | succ m =>
    by_cases h16 : m + 1 < 16
    · simp [hexDigitsAux, h16]
    · have hdiv : (m + 1) / 16 < 16 := by omega
      obtain ⟨m2, rfl⟩ : ∃ m2, m = m2 + 1 := ⟨m - 1, by omega⟩
      simp [hexDigitsAux, h16, hdiv]

lemma pyHex02_byte {n : ℕ} (h : n < 256) :
    pyHex02 n = [hexCharCode (n / 16), hexCharCode (n % 16)] := by
  unfold pyHex02
  rw [hexDigits_byte h]
  split_ifs with h16
  · have h1 : n / 16 = 0 := by omega
    have h2 : n % 16 = n := by omega
    have h48 : hexCharCode 0 = 48 := rfl
    simp [h1, h2, h48, List.replicate]
  · simp

lemma pyHex02_inj {a b : ℕ} (ha : a < 256) (hb : b < 256) (h : pyHex02 a = pyHex02 b) :
    a = b := by
  rw [pyHex02_byte ha, pyHex02_byte hb] at h
  simp only [List.cons.injEq, and_true] at h
  have h1 := hexCharCode_inj (show a / 16 < 16 by omega) (show b / 16 < 16 by omega) h.1
  have h2 := hexCharCode_inj (show a % 16 < 16 by omega) (show b % 16 < 16 by omega) h.2
  omega

lemma validate_of_two (s : List ℕ) (hmem : 42 ∈ s) (content checksum : List ℕ)
    (hsplit : pySplit 42 s = [content, checksum]) :
    validate_nmea_checksum s =
      (pyHex02 ((content.drop 1).foldl Nat.xor 0) == checksum.map pyUpperCode) := by
  unfold validate_nmea_checksum
  rw [if_pos hmem, hsplit]

lemma validate_of_three (s : List ℕ) (hmem : 42 ∈ s) (a b c : List ℕ) (rest : List (List ℕ))
    (hsplit : pySplit 42 s = a :: b :: c :: rest) : validate_nmea_checksum s = false := by
  unfold validate_nmea_checksum
  rw [if_pos hmem, hsplit]

lemma validate_single_star (body cs : List ℕ) (hb : 42 ∉ body) (hcs : 42 ∉ cs) :
    validate_nmea_checksum (36 :: body ++ 42 :: cs) =
      (pyHex02 (body.foldl Nat.xor 0) == cs.map pyUpperCode) := by
  have hmem : 42 ∈ 36 :: body ++ 42 :: cs := by simp
  have hnb : (42 : ℕ) ∉ 36 :: body := by
    intro hm
    rcases List.mem_cons.mp hm with h | h
    · omega
    · exact hb h
  have hsplit : pySplit 42 (36 :: body ++ 42 :: cs) = [36 :: body, cs] := by
    rw [show (36 :: body ++ 42 :: cs : List ℕ) = (36 :: body) ++ 42 :: cs from rfl,
      pySplit_sep_append hnb, pySplit_not_mem hcs]
  rw [validate_of_two _ hmem _ _ hsplit]
  simp

/-- C4: the checksum validator accepts exactly the single-star sentences
whose XOR over the content strictly between the leading '$' and the '*',
formatted as two uppercase hexadecimal digits, equals the uppercased
trailing field; a sentence without '*' or with several '*' is rejected; for
any accepted byte-level sentence, flipping one bit of one content byte makes
the validator reject; and a rejected datagram leaves the receiver state
untouched (no fix, no error path). -/
theorem validate_nmea_checksum_correct :
    (∀ s : List ℕ, 42 ∉ s → validate_nmea_checksum s = false)
    ∧ (∀ u v w : List ℕ, 42 ∉ u → 42 ∉ v →
        validate_nmea_checksum (u ++ 42 :: (v ++ 42 :: w)) = false)
    ∧ (∀ body cs : List ℕ, 42 ∉ body → 42 ∉ cs →
        (validate_nmea_checksum (36 :: body ++ 42 :: cs) = true ↔
          pyHex02 (body.foldl Nat.xor 0) = cs.map pyUpperCode))
    ∧ (∀ u v cs : List ℕ, ∀ c k : ℕ, k < 8 → (∀ x ∈ u ++ c :: v, x < 256) → c ≠ 42 →
        42 ∉ u → 42 ∉ v → 42 ∉ cs →
        validate_nmea_checksum (36 :: (u ++ c :: v) ++ 42 :: cs) = true →
        validate_nmea_checksum (36 :: (u ++ (c ^^^ 2 ^ k) :: v) ++ 42 :: cs) = false)
    ∧ (∀ (st : GpsState) (msg : List ℕ) (now : ℚ), validate_nmea_checksum msg = false →
        gps_message_step st msg now = st) := by
  refine ⟨?_, ?_, ?_, ?_, ?_⟩
  · intro s h
    simp [validate_nmea_checksum, h]
  · intro u v w hu hv
    have hmem : 42 ∈ u ++ 42 :: (v ++ 42 :: w) := by simp
    rcases hw : pySplit 42 w with _ | ⟨h1, t1⟩
    · exact absurd hw (pySplit_ne_nil 42 w)
    · exact validate_of_three _ hmem u v h1 t1
        (by rw [pySplit_sep_append hu, pySplit_sep_append hv, hw])
  · intro body cs hb hcs
    rw [validate_single_star body cs hb hcs]
    exact beq_iff_eq
  · intro u v cs c k hk hbytes hc42 hu hv hcs hvalid
    have hc256 : c < 256 := hbytes c (by simp)
    have h2k : (2 : ℕ) ^ k < 256 := by
      have h1 : (2 : ℕ) ^ k ≤ 2 ^ 7 := Nat.pow_le_pow_right (by norm_num) (by omega)
      have h2 : (2 : ℕ) ^ 7 = 128 := by norm_num
      omega
    have hbody : (42 : ℕ) ∉ u ++ c :: v := by
      intro hm
      rcases List.mem_append.mp hm with h | h
      · exact hu h
      · rcases List.mem_cons.mp h with h | h
        · exact hc42 h.symm
        · exact hv h
    have hX : pyHex02 ((u ++ c :: v).foldl Nat.xor 0) = cs.map pyUpperCode := by
      have := hvalid
      rw [validate_single_star (u ++ c :: v) cs hbody hcs] at this
      exact beq_iff_eq.mp this
    by_cases hc2 : c ^^^ 2 ^ k = 42
    · rw [hc2]
      have harr : (36 :: (u ++ 42 :: v) ++ 42 :: cs : List ℕ) =
          (36 :: u) ++ 42 :: (v ++ 42 :: cs) := by simp
      have hnu : (42 : ℕ) ∉ 36 :: u := by
        intro hm
        rcases List.mem_cons.mp hm with h | h
        · omega
        · exact hu h
      have hmem : 42 ∈ 36 :: (u ++ 42 :: v) ++ 42 :: cs := by simp
      rcases hw : pySplit 42 cs with _ | ⟨h1, t1⟩
      · exact absurd hw (pySplit_ne_nil 42 cs)
      · exact validate_of_three _ hmem (36 :: u) v h1 t1
          (by rw [harr, pySplit_sep_append hnu, pySplit_sep_append hv, hw])
    · have hbody2 : (42 : ℕ) ∉ u ++ (c ^^^ 2 ^ k) :: v := by
        intro hm
        rcases List.mem_append.mp hm with h | h
        · exact hu h
        · rcases List.mem_cons.mp h with h | h
          · exact hc2 h.symm
          · exact hv h
      rw [validate_single_star (u ++ (c ^^^ 2 ^ k) :: v) cs hbody2 hcs]
      rw [xorBytes_flip u v c (2 ^ k)]
      have hXlt : (u ++ c :: v).foldl Nat.xor 0 < 256 := xorBytes_lt _ hbytes
      have h256 : (256 : ℕ) = 2 ^ 8 := by norm_num
      have hX2lt : ((u ++ c :: v).foldl Nat.xor 0) ^^^ 2 ^ k < 256 := by
        rw [h256]
        exact Nat.xor_lt_two_pow (h256 ▸ hXlt) (h256 ▸ h2k)
      have hne : ((u ++ c :: v).foldl Nat.xor 0) ^^^ 2 ^ k ≠ (u ++ c :: v).foldl Nat.xor 0 := by
        intro he
        have h0 : ((u ++ c :: v).foldl Nat.xor 0) ^^^ 2 ^ k =
            ((u ++ c :: v).foldl Nat.xor 0) ^^^ 0 := by rw [Nat.xor_zero]; exact he
        have := Nat.xor_right_inj.mp h0
        have hp : 0 < (2 : ℕ) ^ k := Nat.pos_pow_of_pos k (by norm_num)
        omega
      have hhex : pyHex02 (((u ++ c :: v).foldl Nat.xor 0) ^^^ 2 ^ k) ≠ cs.map pyUpperCode := by
        rw [← hX]
        intro he
        exact hne (pyHex02_inj hX2lt hXlt he)
      exact beq_eq_false_iff_ne.mpr hhex
  · intro st msg now h
    unfold gps_message_step
    split
    · rw [h]
      simp
    · rfl

/-- Witness for C4: the sentence `$A*41` is accepted (XOR of `A` is 0x41)
and its single-bit variant `$E*41` (bit 2 of the content byte flipped) is
rejected. -/
theorem validate_nmea_checksum_correct_witness :
    validate_nmea_checksum [36, 65, 42, 52, 49] = true
    ∧ validate_nmea_checksum [36, 69, 42, 52, 49] = false := by
  have hacc : validate_nmea_checksum (36 :: [65] ++ 42 :: [52, 49]) = true :=
    (validate_nmea_checksum_correct.2.2.1 [65] [52, 49] (by decide) (by decide)).mpr (by decide)
  refine ⟨hacc, ?_⟩
  have hflip := validate_nmea_checksum_correct.2.2.2.1 [] [] [52, 49] 65 2
    (by decide) (by decide) (by decide) (by decide) (by decide) (by decide) hacc
  exact hflip

lemma arctan_pos_of {x : ℝ} (h : 0 < x) : 0 < Real.arctan x := by
  have := Real.arctan_strictMono h
  simpa [Real.arctan_zero] using this

lemma arctan_neg_of {x : ℝ} (h : x < 0) : Real.arctan x < 0 := by
  have := Real.arctan_strictMono h
  simpa [Real.arctan_zero] using this

lemma atan2_of_pos_x (y : ℝ) {x : ℝ} (hx : 0 < x) : atan2 y x = Real.arctan (y / x) := by
  unfold atan2
  rw [if_pos hx]

/-- C1 fails as stated: in a cycle with the operator at (3, 4) and the drone
at (3, 0), the Follow-Me Loop publishes the gimbal angle computed by
get_angle, which is strictly positive, while the claimed formula
atan2(-(drone_alt - operator_alt), horizontal_distance) in degrees clamped
to [-90, +30] is strictly negative at drone altitude 20, operator altitude
0 and horizontal distance 4: the published angle does not equal the claimed
one. -/
theorem follow_cycle_gimbal_not_spec_formula :
    drone_follow_cycle followStateA =
      [DroneCmd.goto ((3 : ℝ) - 10 / 111000) 4 20,
       DroneCmd.setGimbal (get_angle 20 ((3 : ℚ), (0 : ℚ)) ((3 : ℚ), (4 : ℚ)))]
    ∧ 0 < get_angle 20 ((3 : ℚ), (0 : ℚ)) ((3 : ℚ), (4 : ℚ))
    ∧ spec_gimbal_tilt 20 0 4 < 0
    ∧ get_angle 20 ((3 : ℚ), (0 : ℚ)) ((3 : ℚ), (4 : ℚ)) ≠ spec_gimbal_tilt 20 0 4 := by
  have hxdist : Real.sqrt ((((3 : ℚ) : ℝ) - ((3 : ℚ) : ℝ)) ^ 2 + (((4 : ℚ) : ℝ) - ((0 : ℚ) : ℝ)) ^ 2) = 4 := by
    have h1 : (((3 : ℚ) : ℝ) - ((3 : ℚ) : ℝ)) ^ 2 + (((4 : ℚ) : ℝ) - ((0 : ℚ) : ℝ)) ^ 2 = 4 ^ 2 := by
      push_cast
      ring
    rw [h1, Real.sqrt_sq (by norm_num : (0 : ℝ) ≤ 4)]
  have hget : get_angle 20 ((3 : ℚ), (0 : ℚ)) ((3 : ℚ), (4 : ℚ)) =
      (180 / 3.14159) * Real.arctan 5 := by
    simp only [get_angle, hxdist]
    rw [atan2_of_pos_x 20 (by norm_num : (0 : ℝ) < 4)]
    norm_num
  have hpos : 0 < get_angle 20 ((3 : ℚ), (0 : ℚ)) ((3 : ℚ), (4 : ℚ)) := by
    rw [hget]
    have := arctan_pos_of (show (0 : ℝ) < 5 by norm_num)
    positivity
  have hspec : spec_gimbal_tilt 20 0 4 < 0 := by
    unfold spec_gimbal_tilt math_degrees
    rw [show (-((20 : ℝ) - 0)) = -20 by ring, atan2_of_pos_x (-20) (by norm_num : (0 : ℝ) < 4)]
    have hneg : Real.arctan (-20 / 4) < 0 := arctan_neg_of (by norm_num)
    have hraw : Real.arctan (-20 / 4) * (180 / Real.pi) < 0 :=
      mul_neg_of_neg_of_pos hneg (by positivity)
    exact max_lt (by norm_num) (lt_of_le_of_lt (min_le_right _ _) hraw)
  refine ⟨?_, hpos, hspec, ne_of_gt (hspec.trans hpos)⟩
  show drone_follow_cycle followStateA = _
  simp only [drone_follow_cycle, followStateA, update_gimbal_for_tracking,
    calculate_target_position, if_true]
  norm_num

/-- C1 amended: calculate_gimbal_tilt_angle equals the spec formula
(atan2(-(drone_alt - operator_alt), horizontal_distance) in degrees clamped
to [-90, +30]) for positive horizontal distance, returning 0 otherwise; raw
angles of +50 and -120 degrees clamp to +30 and -90; its output lies in
[-90, 30]; but the Follow-Me Loop's unconditional gimbal publication is
get_angle, the unclamped (180/3.14159)-scaled atan2 of the configured
elevation over the planar drone-operator distance — the clamped formula is
published only on the auto-tracking path. -/
theorem gimbal_tilt_amended :
    (∀ d u h : ℝ, 0 < h → calculate_gimbal_tilt_angle d u h = spec_gimbal_tilt d u h)
    ∧ (∀ d u h : ℝ, h ≤ 0 → calculate_gimbal_tilt_angle d u h = 0)
    ∧ (∀ d u h : ℝ, 0 < h → math_degrees (atan2 (-(d - u)) h) = 50 →
        calculate_gimbal_tilt_angle d u h = 30)
    ∧ (∀ d u h : ℝ, 0 < h → math_degrees (atan2 (-(d - u)) h) = -120 →
        calculate_gimbal_tilt_angle d u h = -90)
    ∧ (∀ d u h : ℝ, 0 < h →
        -90 ≤ calculate_gimbal_tilt_angle d u h ∧ calculate_gimbal_tilt_angle d u h ≤ 30)
    ∧ (∀ st : FollowState, st.follow_mode = true → st.auto_tracking_enabled = false →
        st.vehicle_connected = true → st.current_location ≠ (0, 0) → st.drone_location ≠ (0, 0) →
        drone_follow_cycle st =
          [DroneCmd.goto ((st.current_location.1 - st.target_distance / 111000 : ℚ) : ℝ)
            (st.current_location.2 : ℝ) (st.target_elevation : ℝ),
           DroneCmd.setGimbal
             (get_angle (st.target_elevation : ℝ) st.drone_location st.current_location)]) := by
  refine ⟨?_, ?_, ?_, ?_, ?_, ?_⟩
  · intro d u h h0
    unfold calculate_gimbal_tilt_angle spec_gimbal_tilt
    rw [if_neg (not_le.mpr h0)]
  · intro d u h h0
    unfold calculate_gimbal_tilt_angle
    rw [if_pos h0]
  · intro d u h h0 hraw
    unfold calculate_gimbal_tilt_angle
    rw [if_neg (not_le.mpr h0), hraw]
    norm_num
  · intro d u h h0 hraw
    unfold calculate_gimbal_tilt_angle
    rw [if_neg (not_le.mpr h0), hraw]
    norm_num
  · intro d u h h0
    unfold calculate_gimbal_tilt_angle
    rw [if_neg (not_le.mpr h0)]
    exact ⟨le_max_left _ _, max_le (by norm_num) (min_le_left _ _)⟩
  · intro st hf hauto hveh hcur hdr
    have hcur0 : st.current_location ≠ 0 := hcur
    have hdr0 : st.drone_location ≠ 0 := hdr
    simp [drone_follow_cycle, update_gimbal_for_tracking, calculate_target_position,
      hf, hauto, hveh, hcur, hdr, hcur0, hdr0]

/-- Witness for C1 amended: clamp bounds at a concrete positive distance and
the concrete cycle of followStateD publishing the get_angle value. -/
theorem gimbal_tilt_amended_witness :
    ((-90 : ℝ) ≤ calculate_gimbal_tilt_angle 0 0 1 ∧ calculate_gimbal_tilt_angle 0 0 1 ≤ 30)
    ∧ drone_follow_cycle followStateD =
      [DroneCmd.goto (((1 : ℚ) - (5 : ℚ) / 111000 : ℚ) : ℝ) ((2 : ℚ) : ℝ) ((7 : ℚ) : ℝ),
       DroneCmd.setGimbal (get_angle ((7 : ℚ) : ℝ) ((3 : ℚ), (4 : ℚ)) ((1 : ℚ), (2 : ℚ)))] := by
  constructor
  · exact gimbal_tilt_amended.2.2.2.2.1 0 0 1 (by norm_num)
  · have h := gimbal_tilt_amended.2.2.2.2.2 followStateD rfl rfl rfl (by simp [followStateD])
      (by simp [followStateD])
    simpa [followStateD] using h

lemma pollWait_false_all (cond : ℕ → Bool) (t0 timeout step : ℕ) (h : ∀ u, cond u = false) :
    ∀ t, (pollWait cond t0 timeout step t).1 = false := by
  suffices H : ∀ n t, t0 + timeout + 1 - t ≤ n → (pollWait cond t0 timeout step t).1 = false from
    fun t => H (t0 + timeout + 1 - t) t le_rfl
  intro n
  induction n with
  | zero =>
    intro t ht
    rw [pollWait, h t]
    have htt : timeout < t - t0 := by omega
    simp [htt]
  | succ n ih =>
    intro t ht
    rw [pollWait, h t]
    by_cases htt : timeout < t - t0
    · simp [htt]
    · simp only [Bool.false_eq_true, if_false, htt]
      exact ih (t + step + 1) (by omega)

lemma pollWait_time_le (cond : ℕ → Bool) (t0 timeout step : ℕ) :
    ∀ t, t ≤ t0 + timeout + step + 1 →
      (pollWait cond t0 timeout step t).2 ≤ t0 + timeout + step + 1 := by
  suffices H : ∀ n t, t0 + timeout + 1 - t ≤ n → t ≤ t0 + timeout + step + 1 →
      (pollWait cond t0 timeout step t).2 ≤ t0 + timeout + step + 1 from
    fun t ht => H (t0 + timeout + 1 - t) t le_rfl ht
  intro n
  induction n with
  | zero =>
    intro t hn ht
    rw [pollWait]
    cases hcond : cond t with
    | true => simp [hcond]; omega
    | false =>
      have htt : timeout < t - t0 := by omega
      simp [hcond, htt]
      omega
  | succ n ih =>
    intro t hn ht
    rw [pollWait]
    cases hcond : cond t with
    | true => simp [hcond]; omega
    | false =>
      by_cases htt : timeout < t - t0
      · simp [hcond, htt]; omega
      · simp only [hcond, Bool.false_eq_true, if_false, htt]
        exact ih (t + step + 1) (by omega) (by omega)

lemma takeoffMonitor_time_le (tr : VehicleTrace) (target : ℚ) (t0 : ℕ) :
    ∀ t, t ≤ t0 + 121 → (takeoffMonitor tr target t0 t).2 ≤ t0 + 121 := by
  suffices H : ∀ n t, t0 + 121 - t ≤ n → t ≤ t0 + 121 →
      (takeoffMonitor tr target t0 t).2 ≤ t0 + 121 from
    fun t ht => H (t0 + 121 - t) t le_rfl ht
  intro n
  induction n with
  | zero =>
    intro t hn ht
    rw [takeoffMonitor]
    have htt : 120 < t - t0 := by omega
    simp [htt]
    omega
  | succ n ih =>
    intro t hn ht
    rw [takeoffMonitor]
    by_cases htt : 120 < t - t0
    · simp [htt]; omega
    · simp only [htt, if_false]
      by_cases harm : tr.armed t = false
      · simp [harm]; omega
      · simp only [harm, if_false]
        by_cases halt : target * 0.95 ≤ tr.altitude t
        · simp [halt]; omega
        · simp only [halt, if_false]
          exact ih (t + 1) (by omega) (by omega)

lemma armable_wait_none : ∀ fuel t,
    arm_and_takeoff_armable_wait neverArmableTrace t fuel = none := by
  intro fuel
  induction fuel with
  | zero => intro t; rfl
  | succ n ih =>
    intro t
    show arm_and_takeoff_armable_wait neverArmableTrace t (n + 1) = none
    rw [arm_and_takeoff_armable_wait]
    simpa [neverArmableTrace] using ih (t + 2)

/-- C2 fails as stated: the armable wait of arm_and_takeoff — the function
the follow-start path calls — has no timeout, so against a vehicle that
never reports armable it never completes, no matter how many iterations it
is given; in particular it is still waiting after 100 iterations, far past
the claimed ~30 s bound. -/
theorem arm_and_takeoff_wait_unbounded :
    (¬ ∃ fuel t2, arm_and_takeoff_armable_wait neverArmableTrace 0 fuel = some t2)
    ∧ arm_and_takeoff_armable_wait neverArmableTrace 0 100 = none := by
  constructor
  · rintro ⟨fuel, t2, h⟩
    rw [armable_wait_none fuel 0] at h
    exact Option.noConfusion h
  · exact armable_wait_none 100 0

/-- C2 amended: simple_takeoff_only is bounded at every waiting phase
(armable ≈30 s, GUIDED mode ≈10 s, arming ≈15 s, climb ≈60 s, in 0.5 s
ticks): a never-armable vehicle makes it fail inside the armable window with
no mode, arm or takeoff command ever issued, and every attempt ends within
237 ticks of its start; the waits of arm_and_takeoff, by contrast, are
unbounded (its armable wait never finishes against a never-armable
vehicle). -/
theorem takeoff_timeouts_amended :
    (∀ (tr : VehicleTrace) (target : ℚ) (t0 : ℕ), (∀ t, tr.is_armable t = false) →
        simple_takeoff_only tr target t0 = (false, [], (pollWait tr.is_armable t0 60 1 t0).2)
        ∧ (pollWait tr.is_armable t0 60 1 t0).2 ≤ t0 + 62)
    ∧ (∀ (tr : VehicleTrace) (target : ℚ) (t0 : ℕ),
        (simple_takeoff_only tr target t0).2.2 ≤ t0 + 237)
    ∧ (∀ fuel t, arm_and_takeoff_armable_wait neverArmableTrace t fuel = none) := by
  refine ⟨?_, ?_, armable_wait_none⟩
  · intro tr target t0 hall
    have hf := pollWait_false_all tr.is_armable t0 60 1 hall t0
    constructor
    · simp [simple_takeoff_only, hf]
    · have := pollWait_time_le tr.is_armable t0 60 1 t0 (by omega)
      omega
  · intro tr target t0
    have h1 : (pollWait tr.is_armable t0 60 1 t0).2 ≤ t0 + 62 := by
      have := pollWait_time_le tr.is_armable t0 60 1 t0 (by omega)
      omega
    by_cases e1 : (pollWait tr.is_armable t0 60 1 t0).1 = false
    · simp [simple_takeoff_only, e1]
      omega
    · have h2 : (pollWait tr.mode_is_guided (pollWait tr.is_armable t0 60 1 t0).2 20 0
          (pollWait tr.is_armable t0 60 1 t0).2).2 ≤ (pollWait tr.is_armable t0 60 1 t0).2 + 21 := by
        have := pollWait_time_le tr.mode_is_guided (pollWait tr.is_armable t0 60 1 t0).2 20 0
          (pollWait tr.is_armable t0 60 1 t0).2 (by omega)
        omega
      by_cases e2 : (pollWait tr.mode_is_guided (pollWait tr.is_armable t0 60 1 t0).2 20 0
          (pollWait tr.is_armable t0 60 1 t0).2).1 = false
      · simp [simple_takeoff_only, e1, e2]
        omega
      · set t1 := (pollWait tr.is_armable t0 60 1 t0).2 with ht1
        set t2 := (pollWait tr.mode_is_guided t1 20 0 t1).2 with ht2
        have h3 : (pollWait tr.armed (t2 + 2) 30 0 (t2 + 2)).2 ≤ t2 + 2 + 31 := by
          have := pollWait_time_le tr.armed (t2 + 2) 30 0 (t2 + 2) (by omega)
          omega
        by_cases e3 : (pollWait tr.armed (t2 + 2) 30 0 (t2 + 2)).1 = false
        · simp [simple_takeoff_only, e1, e2, e3, ← ht1, ← ht2]
          omega
        · set t3 := (pollWait tr.armed (t2 + 2) 30 0 (t2 + 2)).2 with ht3
          have h4 : (takeoffMonitor tr target t3 t3).2 ≤ t3 + 121 :=
            takeoffMonitor_time_le tr target t3 t3 (by omega)
          simp [simple_takeoff_only, e1, e2, e3, ← ht1, ← ht2, ← ht3]
          omega

/-- Witness for C2 amended: against the never-armable vehicle the takeoff
attempt started at tick 0 fails, issues no command, and ends by tick 62. -/
theorem takeoff_timeouts_amended_witness :
    simple_takeoff_only neverArmableTrace 5 0 =
      (false, [], (pollWait neverArmableTrace.is_armable 0 60 1 0).2)
    ∧ (pollWait neverArmableTrace.is_armable 0 60 1 0).2 ≤ 62 := by
  have h := takeoff_timeouts_amended.1 neverArmableTrace 5 0 (fun t => rfl)
  simpa using h

end SDroneP
